import Mathlib

/-!
Verification model of the IoT sensor service (python-service): the sensor
repository over SQLite, the bearer-token auth gate, the HTTP handlers and the
correlation-id logging middleware, embedded shallowly in Lean.
-/

/-! ## Data model (models/sensor.py, database.py schema) -/

/-- Valid sensor types (models/sensor.py, `SensorType`). -/
inductive SensorType
  | temperature | motion | humidity | light | air_quality | co2 | contact | pressure
deriving DecidableEq, Repr

/-- The `.value` string of a `SensorType` enum member. -/
def SensorType.value : SensorType → String
  | .temperature => "temperature"
  | .motion => "motion"
  | .humidity => "humidity"
  | .light => "light"
  | .air_quality => "air_quality"
  | .co2 => "co2"
  | .contact => "contact"
  | .pressure => "pressure"

/-- Valid sensor statuses (models/sensor.py, `SensorStatus`). -/
inductive SensorStatus
  | active | inactive | error
deriving DecidableEq, Repr

/-- The `.value` string of a `SensorStatus` enum member. -/
def SensorStatus.value : SensorStatus → String
  | .active => "active"
  | .inactive => "inactive"
  | .error => "error"

/-- A Python value of type `Union[float, int, bool]`, the declared type of the
`value` field.  Floats are modelled as rationals; the service does no
arithmetic on them, it only stores and returns them. -/
inductive PyVal
  | pyBool (b : Bool)
  | pyInt (n : Int)
  | pyFloat (q : ℚ)
deriving DecidableEq, Repr

/-- One row of the `sensors` table (database.py `SCHEMA`): `type` and `status`
are stored as TEXT, `value` as REAL (modelled as a rational). -/
structure SensorRow where
  id : String
  name : String
  type : String
  location : String
  value : ℚ
  unit : String
  status : String
  last_reading : String
  created_at : String
  updated_at : String
deriving DecidableEq, Repr

/-- Input model for `create` (models/sensor.py, `SensorCreate`). -/
structure SensorCreate where
  name : String
  type : SensorType
  location : String
  value : PyVal
  unit : String
  status : SensorStatus
deriving DecidableEq, Repr

/-- Input model for `update` (models/sensor.py, `SensorUpdate`): every field is
optional and nullable.  `none` means the field was not supplied at all
(pydantic "unset"), `some none` means it was supplied with an explicit null,
and `some (some v)` means it was supplied with value `v`. -/
structure SensorUpdate where
  name : Option (Option String) := none
  type : Option (Option SensorType) := none
  location : Option (Option String) := none
  value : Option (Option PyVal) := none
  unit : Option (Option String) := none
  status : Option (Option SensorStatus) := none
deriving DecidableEq, Repr

/-! ## SQLite helpers used by the id-allocation query

`SELECT MAX(CAST(SUBSTR(id, 8) AS INTEGER)) FROM sensors WHERE id LIKE `sensor-%``
-/

/-- Value of a decimal digit character. -/
def digitVal (c : Char) : Nat := c.toNat - 48

/-- SQLite CAST-to-INTEGER digit scanner: consume decimal digits from the
front of the character list, accumulating their value, and stop at the first
non-digit. -/
def leadingNat : List Char → Nat → Nat
  | [], acc => acc
  | c :: rest, acc =>
    if c.isDigit then leadingNat rest (acc * 10 + digitVal c) else acc

/-- SQLite CAST-to-INTEGER after the leading spaces: an optional sign
followed by the longest prefix of decimal digits (0 if there is none). -/
def castIntChars : List Char → Int
  | [] => 0
  | c :: rest =>
    if c = '-' then -(leadingNat rest 0 : Int)
    else if c = '+' then (leadingNat rest 0 : Int)
    else (leadingNat (c :: rest) 0 : Int)

/-- SQLite `CAST(text AS INTEGER)`: skip leading spaces, accept an optional
sign, then read the longest prefix of decimal digits (0 if there is none). -/
def castToInt (s : String) : Int :=
  castIntChars (s.data.dropWhile (· = ' '))

/-- SQLite `SUBSTR(id, 8)`: the characters of `id` from position 8 on. -/
def substrFrom8 (id : String) : String := String.mk (id.data.drop 7)

/-- The numeric suffix the id-allocation query extracts from one id:
`CAST(SUBSTR(id, 8) AS INTEGER)`. -/
def suffixNum (id : String) : Int := castToInt (substrFrom8 id)

/-- SQLite `id LIKE` on the pattern `sensor-%`: case-insensitive (ASCII) prefix match. -/
def isLikeSensor (id : String) : Bool :=
  decide ((id.data.map Char.toLower).take 7 = "sensor-".data)

/-- SQLite `MAX` aggregate: `none` (NULL) on an empty set, otherwise the
maximum. -/
def sqlMax : List Int → Option Int
  | [] => none
  | x :: xs => some ((sqlMax xs).elim x (max x))

/-- Decimal digits, most significant first, with a fuel argument for
structural recursion; the fuel never runs out when it starts at `n`. -/
def natDigitsFuel : Nat → Nat → List Char
  | 0, n => [Char.ofNat (48 + n % 10)]
  | fuel + 1, n =>
    if n < 10 then [Char.ofNat (48 + n)]
    else natDigitsFuel fuel (n / 10) ++ [Char.ofNat (48 + n % 10)]

/-- Decimal digits of a natural number, most significant first. -/
def natDigits (n : Nat) : List Char := natDigitsFuel n n

/-- Left-pad a digit string with zeros to width `w`. -/
def padZeros (w : Nat) (ds : List Char) : List Char :=
  List.replicate (w - ds.length) '0' ++ ds

/-- Python `format(n, "03d")`: decimal rendering, zero-padded to total width 3
(the sign, when present, counts towards the width). -/
def pyFormat03d (n : Int) : String :=
  if n < 0 then String.mk ('-' :: padZeros 2 (natDigits n.natAbs))
  else String.mk (padZeros 3 (natDigits n.natAbs))

/-! ## Sensor repository (repositories/sensor_repository.py) -/

/-- Source `_convert_value_for_storage`: booleans become 1.0 / 0.0, everything else
is converted with `float(...)`. -/
def SensorRepository.convert_value_for_storage : PyVal → ℚ
  | .pyBool b => if b then 1 else 0
  | .pyInt n => (n : ℚ)
  | .pyFloat q => q

/-- Source `get_by_id`: `SELECT ... FROM sensors WHERE id = ?`, first matching row. -/
def SensorRepository.get_by_id (rows : List SensorRow) (sensor_id : String) :
    Option SensorRow :=
  rows.find? (fun r => r.id == sensor_id)

/-- Source `get_all`: `SELECT ... FROM sensors ORDER BY id` (ascending TEXT order). -/
def SensorRepository.get_all (rows : List SensorRow) : List SensorRow :=
  rows.mergeSort (fun a b => a.id ≤ b.id)

/-- The `max_num` computed in `create`: the id-allocation query followed by
the Python `cursor.fetchone()[0] or 0` (NULL becomes 0). -/
def SensorRepository.max_num (rows : List SensorRow) : Int :=
  (sqlMax ((rows.filter (fun r => isLikeSensor r.id)).map
    (fun r => suffixNum r.id))).getD 0

/-- Source `create`: allocate `new_id = f"sensor-{max_num + 1:03d}"`, convert the
value for storage, insert the row with `created_at = updated_at =
last_reading = now`.  Returns the inserted row together with the new table
state; `create_readback` below shows the row equals the read-back
`self.get_by_id(new_id)` that the source returns. -/
def SensorRepository.create (rows : List SensorRow) (sensor : SensorCreate)
    (now : String) : SensorRow × List SensorRow :=
  let new_id := "sensor-" ++ pyFormat03d (SensorRepository.max_num rows + 1)
  let value := SensorRepository.convert_value_for_storage sensor.value
  let row : SensorRow :=
    { id := new_id, name := sensor.name, type := sensor.type.value,
      location := sensor.location, value := value, unit := sensor.unit,
      status := sensor.status.value, last_reading := now, created_at := now,
      updated_at := now }
  (row, rows ++ [row])

/-- A supplied, non-null field of a `SensorUpdate`: the code iterates
`model_dump(exclude_unset=True)` and then skips entries whose value is
`None`. -/
def suppliedValue {α : Type} : Option (Option α) → Option α
  | some (some v) => some v
  | _ => none

/-- Whether `update_fields` is non-empty: at least one field was supplied with
a non-null value. -/
def SensorUpdate.hasFields (u : SensorUpdate) : Bool :=
  (suppliedValue u.name).isSome || (suppliedValue u.type).isSome ||
  (suppliedValue u.location).isSome || (suppliedValue u.value).isSome ||
  (suppliedValue u.unit).isSome || (suppliedValue u.status).isSome

/-- The effect of the generated `UPDATE sensors SET ...` on one row: each
supplied non-null field is overwritten (enums via `.value`, `value` via
`_convert_value_for_storage`), and `updated_at` and `last_reading` are set to
`now`. -/
def applyUpdate (u : SensorUpdate) (now : String) (r : SensorRow) : SensorRow :=
  { r with
    name := (suppliedValue u.name).getD r.name,
    type := ((suppliedValue u.type).map SensorType.value).getD r.type,
    location := (suppliedValue u.location).getD r.location,
    value := ((suppliedValue u.value).map
      SensorRepository.convert_value_for_storage).getD r.value,
    unit := (suppliedValue u.unit).getD r.unit,
    status := ((suppliedValue u.status).map SensorStatus.value).getD r.status,
    updated_at := now, last_reading := now }

/-- Source `update`: look the row up; when no non-null field was supplied return the
existing row untouched; otherwise run the generated UPDATE on the rows whose
id matches and re-fetch the row. -/
def SensorRepository.update (rows : List SensorRow) (sensor_id : String)
    (updates : SensorUpdate) (now : String) :
    Option SensorRow × List SensorRow :=
  match SensorRepository.get_by_id rows sensor_id with
  | none => (none, rows)
  | some existing =>
    if updates.hasFields then
      let rows' := rows.map (fun r =>
        if r.id == sensor_id then applyUpdate updates now r else r)
      (SensorRepository.get_by_id rows' sensor_id, rows')
    else (some existing, rows)

/-- Source `delete`: `DELETE FROM sensors WHERE id = ?`; returns the new table state
and `cursor.rowcount > 0`. -/
def SensorRepository.delete (rows : List SensorRow) (sensor_id : String) :
    List SensorRow × Bool :=
  (rows.filter (fun r => r.id != sensor_id),
   decide (0 < (rows.filter (fun r => r.id == sensor_id)).length))

/-! ## Configuration (config.py) -/

/-- Application settings (config.py, `Settings`): `api_token` is required and
has no default, the rest have defaults. -/
structure Settings where
  port : Int := 8000
  database_path : String := "/app/data/sensors-python.db"
  api_token : String
  log_level : String := "INFO"
  log_format : String := "json"
  seed_data_path : String := "/app/data/sensors.json"
deriving DecidableEq, Repr

/-! ## Auth gate (middleware/auth.py) -/

/-- Outcome of the bearer-token dependency: either the validated token, or an
HTTPException with its status code, detail and optional `WWW-Authenticate`
challenge header. -/
inductive AuthResult
  | allowed (token : String)
  | unauthorized (statusCode : Nat) (detail : String)
      (wwwAuthenticate : Option String)
deriving DecidableEq, Repr

/-- Source `verify_token` (middleware/auth.py): compares the presented credential to
`settings.api_token` by exact string equality; a mismatch raises HTTP 401
with detail "Invalid or expired token" and a `WWW-Authenticate: Bearer`
header. -/
def verify_token (settings : Settings) (credential : String) : AuthResult :=
  if credential != settings.api_token then
    .unauthorized 401 "Invalid or expired token" (some "Bearer")
  else .allowed credential

/-- Modelled from the spec: extraction of the bearer credential from the
`Authorization` header is done by `HTTPBearer` from the HTTP framework, which
is not part of the sources of this repository; per spec (§4.3, §6: "mismatch or
absence → 401 with a challenge header"), a request with no credential is
rejected as 401 with a bearer challenge.  A present credential is checked by
`verify_token`, taken from the source. -/
def authGate (settings : Settings) (credential : Option String) : AuthResult :=
  match credential with
  | none => .unauthorized 401 "Not authenticated" (some "Bearer")
  | some c => verify_token settings c

/-! ## HTTP handlers (routers/sensors.py, routers/health.py) -/

/-- Response of a sensor endpoint: a sensor body, a list body with a count,
an empty 204 body, or an HTTPException-derived error response. -/
inductive SensorResponse
  | sensor (statusCode : Nat) (s : SensorRow)
  | sensorList (statusCode : Nat) (sensors : List SensorRow) (count : Nat)
  | noContent (statusCode : Nat)
  | httpError (statusCode : Nat) (detail : String)
      (wwwAuthenticate : Option String)
deriving DecidableEq, Repr

/-- Endpoint `GET /sensors` (`list_sensors`): all sensors plus their count. -/
def list_sensors (settings : Settings) (credential : Option String)
    (rows : List SensorRow) : SensorResponse × List SensorRow :=
  match authGate settings credential with
  | .unauthorized st d ch => (.httpError st d ch, rows)
  | .allowed _ =>
    let sensors := SensorRepository.get_all rows
    (.sensorList 200 sensors sensors.length, rows)

/-- Endpoint `GET /sensors/\x7bsensor_id\x7d` (`get_sensor`): the sensor or a 404. -/
def get_sensor (settings : Settings) (credential : Option String)
    (rows : List SensorRow) (sensor_id : String) :
    SensorResponse × List SensorRow :=
  match authGate settings credential with
  | .unauthorized st d ch => (.httpError st d ch, rows)
  | .allowed _ =>
    match SensorRepository.get_by_id rows sensor_id with
    | none =>
      (.httpError 404 ("No sensor with id \x27" ++ sensor_id ++ "\x27") none,
       rows)
    | some s => (.sensor 200 s, rows)

/-- Endpoint `POST /sensors` (`create_sensor`): creates the sensor, 201. -/
def create_sensor (settings : Settings) (credential : Option String)
    (rows : List SensorRow) (sensor : SensorCreate) (now : String) :
    SensorResponse × List SensorRow :=
  match authGate settings credential with
  | .unauthorized st d ch => (.httpError st d ch, rows)
  | .allowed _ =>
    let result := SensorRepository.create rows sensor now
    (.sensor 201 result.1, result.2)

/-- Endpoint `PUT /sensors/\x7bsensor_id\x7d` (`update_sensor`): partial update, 200 on
success, 404 when the sensor does not exist. -/
def update_sensor (settings : Settings) (credential : Option String)
    (rows : List SensorRow) (sensor_id : String) (updates : SensorUpdate)
    (now : String) : SensorResponse × List SensorRow :=
  match authGate settings credential with
  | .unauthorized st d ch => (.httpError st d ch, rows)
  | .allowed _ =>
    match SensorRepository.update rows sensor_id updates now with
    | (none, rows') =>
      (.httpError 404 ("No sensor with id \x27" ++ sensor_id ++ "\x27") none,
       rows')
    | (some s, rows') => (.sensor 200 s, rows')

/-- Endpoint `DELETE /sensors/\x7bsensor_id\x7d` (`delete_sensor`): 204 when a row was
removed, 404 otherwise. -/
def delete_sensor (settings : Settings) (credential : Option String)
    (rows : List SensorRow) (sensor_id : String) :
    SensorResponse × List SensorRow :=
  match authGate settings credential with
  | .unauthorized st d ch => (.httpError st d ch, rows)
  | .allowed _ =>
    let result := SensorRepository.delete rows sensor_id
    if result.2 then (.noContent 204, result.1)
    else
      (.httpError 404 ("No sensor with id \x27" ++ sensor_id ++ "\x27") none,
       result.1)

/-- Response of `GET /health`. -/
inductive HealthResponse
  | ok (statusField : String) (serviceField : String)
  | httpError (statusCode : Nat) (detail : String)
      (wwwAuthenticate : Option String)
deriving DecidableEq, Repr

/-- Endpoint `GET /health` (routers/health.py): guarded by `Depends(verify_token)`
unconditionally — `Settings` has no field that exempts it — and returns
`{"status": "ok", "service": "python"}`. -/
def health (settings : Settings) (credential : Option String) :
    HealthResponse :=
  match authGate settings credential with
  | .unauthorized st d ch => .httpError st d ch
  | .allowed _ => .ok "ok" "python"

/-! ## Logging middleware (middleware/logging.py) -/

/-- The parts of an inbound request the middleware reads. -/
structure RequestInfo where
  correlationHeader : Option String
  method : String
  path : String
deriving DecidableEq, Repr

/-- An HTTP response as the middleware sees it: a status code and headers. -/
structure HttpResult where
  statusCode : Nat
  headers : List (String × String)
deriving DecidableEq, Repr

/-- One structured log record as produced by `logger.info` in the middleware
together with `CorrelationIdFilter` and the JSON formatter's extra fields. -/
structure LogRecord where
  level : String
  correlation_id : String
  message : String
  method : String
  path : String
  status : Nat
  duration_ms : ℚ
deriving DecidableEq, Repr

/-- Source `LoggingMiddleware.dispatch`: bind the correlation id (the inbound
`X-Correlation-ID` header when present, else a freshly generated uuid, passed
here as `freshId`); run the inner application (its response is `inner`, its
elapsed time `elapsedMs`); emit exactly one INFO record with method, path,
status and duration, stamped with the bound correlation id by
`CorrelationIdFilter`; and attach the correlation id to the response
headers. -/
def LoggingMiddleware.dispatch (req : RequestInfo) (freshId : String)
    (inner : HttpResult) (elapsedMs : ℚ) : HttpResult × List LogRecord :=
  let correlation_id := req.correlationHeader.getD freshId
  let record : LogRecord :=
    { level := "INFO", correlation_id := correlation_id,
      message := "Request completed", method := req.method, path := req.path,
      status := inner.statusCode, duration_ms := elapsedMs }
  ({ inner with
      headers := inner.headers ++ [("X-Correlation-ID", correlation_id)] },
   [record])

/-! ## Spec-side definitions (for comparing the code with the words of the spec) -/

/-- Decimal value of a digit string, most significant digit first. -/
def decValList (cs : List Char) : Nat :=
  cs.foldl (fun a c => a * 10 + digitVal c) 0

/-- Spec-side: an id "matching the `sensor-NNN` pattern" — the literal text
`sensor-` followed by a non-empty run of decimal digits. -/
def matchesSensorNNN (id : String) : Bool :=
  decide (id.data.take 7 = "sensor-".data) && !(id.data.drop 7).isEmpty &&
  (id.data.drop 7).all Char.isDigit

/-- Spec-side: the numeric suffix of a `sensor-NNN` id. -/
def specSuffix (id : String) : Nat := decValList (id.data.drop 7)

/-- Spec-side, from the words of the spec: the suffix the next create allocates,
the maximum numeric suffix among ids currently in the store that match the
`sensor-NNN` pattern, plus 1; equal to 1 when no such id exists. -/
def specNextSuffix (rows : List SensorRow) : Nat :=
  ((rows.filter (fun r => matchesSensorNNN r.id)).map
    (fun r => specSuffix r.id)).foldr max 0 + 1

/-- Replace every explicitly-null field of an update by an absent one. -/
def SensorUpdate.stripNulls (u : SensorUpdate) : SensorUpdate :=
  { name := (suppliedValue u.name).map some,
    type := (suppliedValue u.type).map some,
    location := (suppliedValue u.location).map some,
    value := (suppliedValue u.value).map some,
    unit := (suppliedValue u.unit).map some,
    status := (suppliedValue u.status).map some }

/-! ## Concrete sample data (used by witnesses and counterexamples) -/

/-- A concrete valid create input. -/
def sampleCreate : SensorCreate :=
  { name := "Test Sensor", type := .temperature, location := "test_room",
    value := .pyFloat (145 / 2), unit := "fahrenheit", status := .active }

/-- A concrete stored row with id `sensor-003`. -/
def sampleRow3 : SensorRow :=
  { id := "sensor-003", name := "Kitchen Temp", type := "temperature",
    location := "kitchen", value := 70, unit := "fahrenheit",
    status := "active", last_reading := "t0", created_at := "t0",
    updated_at := "t0" }

/-- A concrete stored row with id `sensor-007`. -/
def sampleRow7 : SensorRow :=
  { id := "sensor-007", name := "Hall Motion", type := "motion",
    location := "hallway", value := 0, unit := "boolean",
    status := "active", last_reading := "t0", created_at := "t0",
    updated_at := "t0" }

/-- Concrete settings with the test token from tests/conftest.py. -/
def sampleSettings : Settings := { api_token := "test-secret-token" }

/-- A concrete partial update supplying `value` and `status`. -/
def sampleUpdate : SensorUpdate :=
  { value := some (some (.pyFloat (151 / 2))), status := some (some .inactive) }

/-- A concrete update supplying `value: true`. -/
def boolTrueUpdate : SensorUpdate := { value := some (some (.pyBool true)) }

/-- A concrete update whose only supplied field is an explicit null. -/
def sampleNullUpdate : SensorUpdate := { name := some none }

/-- A concrete inbound request carrying a correlation header. -/
def sampleRequest : RequestInfo :=
  { correlationHeader := some "abc-123", method := "GET", path := "/sensors" }

/-- A concrete inner response for the middleware. -/
def sampleInner : HttpResult := { statusCode := 200, headers := [] }
/-! ## Helper lemmas -/

theorem leadingNat_digits (cs : List Char) (h : ∀ c ∈ cs, c.isDigit) :
    ∀ acc, leadingNat cs acc = cs.foldl (fun a c => a * 10 + digitVal c) acc := by
  induction cs with
  | nil => intro acc; rfl
  | cons c rest ih =>
    intro acc
    have hc : c.isDigit := h c (by simp)
    rw [leadingNat, if_pos hc, List.foldl_cons]
    exact ih (fun x hx => h x (by simp [hx])) _

theorem digitChar_isDigit (m : Nat) (h : m < 10) :
    (Char.ofNat (48 + m)).isDigit = true := by
  interval_cases m <;> decide

theorem digitVal_digitChar (m : Nat) (h : m < 10) :
    digitVal (Char.ofNat (48 + m)) = m := by
  interval_cases m <;> decide

theorem natDigitsFuel_digits (fuel : Nat) :
    ∀ n, ∀ c ∈ natDigitsFuel fuel n, c.isDigit := by
  induction fuel with
  | zero =>
    intro n c hc
    simp only [natDigitsFuel, List.mem_singleton] at hc
    subst hc
    exact digitChar_isDigit _ (Nat.mod_lt _ (by omega))
  | succ fuel ih =>
    intro n c hc
    rw [natDigitsFuel] at hc
    split at hc
    · simp only [List.mem_singleton] at hc
      subst hc
      exact digitChar_isDigit _ (by omega)
    · rw [List.mem_append] at hc
      rcases hc with hc | hc
      · exact ih _ c hc
      · simp only [List.mem_singleton] at hc
        subst hc
        exact digitChar_isDigit _ (Nat.mod_lt _ (by omega))

theorem natDigits_digits (n : Nat) : ∀ c ∈ natDigits n, c.isDigit :=
  natDigitsFuel_digits n n

theorem natDigits_ne_nil (n : Nat) : natDigits n ≠ [] := by
  rw [natDigits]
  cases n with
  | zero => simp [natDigitsFuel]
  | succ m =>
    rw [natDigitsFuel]
    split <;> simp

theorem decValList_natDigitsFuel (fuel : Nat) :
    ∀ n, n ≤ fuel → decValList (natDigitsFuel fuel n) = n := by
  induction fuel with
  | zero =>
    intro n hn
    interval_cases n
    decide
  | succ fuel ih =>
    intro n hn
    rw [natDigitsFuel]
    split
    · rename_i h
      unfold decValList
      simp only [List.foldl_cons, List.foldl_nil]
      rw [digitVal_digitChar _ h]
      omega
    · rename_i h
      unfold decValList
      rw [List.foldl_append]
      have hdiv : n / 10 ≤ fuel := by
        have := Nat.div_lt_self (show 0 < n by omega) (show 1 < 10 by omega)
        omega
      have ihd := ih (n / 10) hdiv
      unfold decValList at ihd
      rw [ihd]
      simp only [List.foldl_cons, List.foldl_nil]
      rw [digitVal_digitChar _ (Nat.mod_lt _ (by omega))]
      omega

theorem decValList_natDigits (n : Nat) : decValList (natDigits n) = n :=
  decValList_natDigitsFuel n n le_rfl

theorem isDigit_ne_space {c : Char} (h : c.isDigit) : ¬ c = ' ' := by
  intro he; subst he; exact absurd h (by decide)

theorem isDigit_ne_minus {c : Char} (h : c.isDigit) : ¬ c = '-' := by
  intro he; subst he; exact absurd h (by decide)

theorem isDigit_ne_plus {c : Char} (h : c.isDigit) : ¬ c = '+' := by
  intro he; subst he; exact absurd h (by decide)

theorem decValList_padZeros (w : Nat) (ds : List Char) :
    decValList (padZeros w ds) = decValList ds := by
  unfold padZeros decValList
  rw [List.foldl_append]
  congr 1
  induction (w - ds.length) with
  | zero => rfl
  | succ k ih => rw [List.replicate_succ, List.foldl_cons]; simpa using ih

theorem padZeros_digits (w : Nat) (ds : List Char) (h : ∀ c ∈ ds, c.isDigit) :
    ∀ c ∈ padZeros w ds, c.isDigit := by
  intro c hc
  rw [padZeros, List.mem_append] at hc
  rcases hc with hc | hc
  · rw [List.eq_of_mem_replicate hc]; decide
  · exact h c hc

theorem castIntChars_digits (cs : List Char) (hne : cs ≠ [])
    (h : ∀ c ∈ cs, c.isDigit) : castIntChars cs = (decValList cs : Int) := by
  match cs, hne with
  | c :: rest, _ =>
    have hc : c.isDigit := h c (by simp)
    rw [castIntChars, if_neg (isDigit_ne_minus hc), if_neg (isDigit_ne_plus hc),
      leadingNat_digits _ h]
    rfl

theorem dropWhile_space_of_digit (c : Char) (cs : List Char) (h : c.isDigit) :
    (c :: cs).dropWhile (· = ' ') = c :: cs := by
  rw [List.dropWhile_cons]
  simp [isDigit_ne_space h]

theorem castToInt_digits (cs : List Char) (hne : cs ≠ [])
    (h : ∀ c ∈ cs, c.isDigit) :
    castToInt (String.mk cs) = (decValList cs : Int) := by
  match cs, hne with
  | c :: rest, _ =>
    rw [castToInt]
    show castIntChars ((c :: rest).dropWhile (· = ' ')) = _
    rw [dropWhile_space_of_digit c rest (h c (by simp))]
    exact castIntChars_digits _ (by simp) h

theorem castToInt_pyFormat03d (n : Int) : castToInt (pyFormat03d n) = n := by
  rw [pyFormat03d]
  split
  · rename_i hneg
    rw [castToInt]
    show castIntChars (('-' :: padZeros 2 (natDigits n.natAbs)).dropWhile (· = ' ')) = n
    rw [List.dropWhile_cons]
    simp only [decide_eq_true_eq, if_neg (by decide : ¬ ('-' = ' '))]
    rw [castIntChars, if_pos rfl,
      leadingNat_digits _ (padZeros_digits _ _ (natDigits_digits _))]
    show -((decValList (padZeros 2 (natDigits n.natAbs)) : Nat) : Int) = n
    rw [decValList_padZeros, decValList_natDigits]
    omega
  · rename_i hpos
    rw [castToInt]
    show castIntChars ((padZeros 3 (natDigits n.natAbs)).dropWhile (· = ' ')) = n
    have hd := padZeros_digits 3 _ (natDigits_digits n.natAbs)
    have hne : padZeros 3 (natDigits n.natAbs) ≠ [] := by
      unfold padZeros
      intro he
      exact natDigits_ne_nil n.natAbs (by simpa using (List.append_eq_nil.mp he).2)
    match hm : padZeros 3 (natDigits n.natAbs), hne with
    | c :: rest, _ =>
      rw [dropWhile_space_of_digit c rest (hd c (by rw [hm]; simp))]
      rw [castIntChars_digits _ (by simp) (fun x hx => hd x (by rw [hm]; exact hx))]
      rw [← hm, decValList_padZeros, decValList_natDigits]
      omega

theorem substrFrom8_sensor_append (s : String) :
    substrFrom8 ("sensor-" ++ s) = s := by
  rw [substrFrom8]
  have : ("sensor-" ++ s).data = "sensor-".data ++ s.data := by
    cases s with
    | mk d => rfl
  rw [this]
  have h7 : ("sensor-".data).length = 7 := by decide
  rw [← h7, List.drop_left]

theorem suffixNum_sensor_format (n : Int) :
    suffixNum ("sensor-" ++ pyFormat03d n) = n := by
  rw [suffixNum, substrFrom8_sensor_append, castToInt_pyFormat03d]

theorem isLikeSensor_sensor_append (s : String) :
    isLikeSensor ("sensor-" ++ s) = true := by
  rw [isLikeSensor]
  have hdata : ("sensor-" ++ s).data = "sensor-".data ++ s.data := by
    cases s with
    | mk d => rfl
  rw [hdata, List.map_append]
  have h7 : (("sensor-".data).map Char.toLower).length = 7 := by decide
  rw [decide_eq_true_eq, ← h7, List.take_left]
  decide

theorem sqlMax_eq_none_iff (xs : List Int) : sqlMax xs = none ↔ xs = [] := by
  cases xs <;> simp [sqlMax]

theorem le_sqlMax_getD {x : Int} {xs : List Int} (hx : x ∈ xs) :
    x ≤ (sqlMax xs).getD 0 := by
  induction xs with
  | nil => cases hx
  | cons y ys ih =>
    rw [sqlMax]
    cases hys : sqlMax ys with
    | none =>
      have : ys = [] := (sqlMax_eq_none_iff ys).mp hys
      subst this
      simp only [List.mem_singleton] at hx
      subst hx
      simp [Option.elim]
    | some m =>
      simp only [List.mem_cons] at hx
      rcases hx with rfl | hx
      · simp [Option.elim, le_max_iff]
      · have := ih hx
        rw [hys] at this
        simp only [Option.getD_some] at this
        simp [Option.elim, le_max_iff]
        right
        exact this

theorem suffixNum_le_max_num {rows : List SensorRow} {r : SensorRow}
    (hr : r ∈ rows) (hlike : isLikeSensor r.id = true) :
    suffixNum r.id ≤ SensorRepository.max_num rows := by
  apply le_sqlMax_getD
  exact List.mem_map_of_mem _ (List.mem_filter.mpr ⟨hr, hlike⟩)

theorem create_fst_id (rows : List SensorRow) (sensor : SensorCreate)
    (now : String) :
    (SensorRepository.create rows sensor now).1.id =
      "sensor-" ++ pyFormat03d (SensorRepository.max_num rows + 1) := rfl

theorem suffixNum_create (rows : List SensorRow) (sensor : SensorCreate)
    (now : String) :
    suffixNum (SensorRepository.create rows sensor now).1.id =
      SensorRepository.max_num rows + 1 := by
  rw [create_fst_id, suffixNum_sensor_format]

theorem create_id_fresh (rows : List SensorRow) (sensor : SensorCreate)
    (now : String) :
    ∀ r ∈ rows, r.id ≠ (SensorRepository.create rows sensor now).1.id := by
  intro r hr heq
  have hlike : isLikeSensor r.id = true := by
    rw [heq, create_fst_id]
    exact isLikeSensor_sensor_append _
  have hle := suffixNum_le_max_num hr hlike
  rw [heq, suffixNum_create] at hle
  omega

theorem find?_append_of_none {α : Type} (p : α → Bool) (l₁ l₂ : List α)
    (h : l₁.find? p = none) : (l₁ ++ l₂).find? p = l₂.find? p := by
  induction l₁ with
  | nil => rfl
  | cons x xs ih =>
    cases hp : p x with
    | true =>
      rw [List.find?_cons_of_pos _ hp] at h
      exact absurd h (by simp)
    | false =>
      have hp' : ¬ p x = true := by simp [hp]
      rw [List.find?_cons_of_neg _ hp'] at h
      rw [List.cons_append, List.find?_cons_of_neg _ hp']
      exact ih h

theorem create_readback (rows : List SensorRow) (sensor : SensorCreate)
    (now : String) :
    SensorRepository.get_by_id (SensorRepository.create rows sensor now).2
        (SensorRepository.create rows sensor now).1.id =
      some (SensorRepository.create rows sensor now).1 := by
  rw [SensorRepository.get_by_id]
  have h2 : (SensorRepository.create rows sensor now).2 =
      rows ++ [(SensorRepository.create rows sensor now).1] := rfl
  rw [h2]
  rw [find?_append_of_none]
  · simp [List.find?_cons]
  · rw [List.find?_eq_none]
    intro r hr
    simp only [beq_iff_eq]
    exact create_id_fresh rows sensor now r hr

theorem applyUpdate_id (u : SensorUpdate) (now : String) (r : SensorRow) :
    (applyUpdate u now r).id = r.id := rfl

theorem get_by_id_map_ite (rows : List SensorRow) (sensor_id : String)
    (f : SensorRow → SensorRow) (hf : ∀ r, (f r).id = r.id) :
    SensorRepository.get_by_id
        (rows.map (fun r => if r.id == sensor_id then f r else r)) sensor_id =
      (SensorRepository.get_by_id rows sensor_id).map f := by
  rw [SensorRepository.get_by_id, SensorRepository.get_by_id]
  induction rows with
  | nil => rfl
  | cons r rest ih =>
    by_cases hp : r.id = sensor_id
    · simp [List.find?_cons, hp, hf r]
    · have hb : (r.id == sensor_id) = false := by simp [hp]
      simp only [List.map_cons, List.find?_cons, hb,
        if_neg (show ¬ ((r.id == sensor_id) = true) by simp [hp])]
      simp only [if_neg (Bool.false_ne_true), hb]
      exact ih

theorem update_char (rows : List SensorRow) (sensor_id : String)
    (u : SensorUpdate) (now : String) (ex : SensorRow)
    (hex : SensorRepository.get_by_id rows sensor_id = some ex) :
    SensorRepository.update rows sensor_id u now =
      if u.hasFields then
        (some (applyUpdate u now ex),
         rows.map (fun r => if r.id == sensor_id then applyUpdate u now r else r))
      else (some ex, rows) := by
  rw [SensorRepository.update, hex]
  cases hh : u.hasFields with
  | true =>
    simp only [if_pos rfl]
    rw [get_by_id_map_ite rows sensor_id _ (applyUpdate_id u now), hex]
    rfl
  | false => simp

theorem update_not_found (rows : List SensorRow) (sensor_id : String)
    (u : SensorUpdate) (now : String)
    (hex : SensorRepository.get_by_id rows sensor_id = none) :
    SensorRepository.update rows sensor_id u now = (none, rows) := by
  rw [SensorRepository.update, hex]

theorem suppliedValue_map_some {α : Type} (x : Option (Option α)) :
    suppliedValue ((suppliedValue x).map some) = suppliedValue x := by
  match x with
  | none => rfl
  | some none => rfl
  | some (some v) => rfl

theorem stripNulls_applyUpdate (u : SensorUpdate) (now : String)
    (r : SensorRow) : applyUpdate u.stripNulls now r = applyUpdate u now r := by
  rw [applyUpdate, applyUpdate, SensorUpdate.stripNulls]
  simp only [suppliedValue_map_some]

theorem stripNulls_hasFields (u : SensorUpdate) :
    u.stripNulls.hasFields = u.hasFields := by
  rw [SensorUpdate.hasFields, SensorUpdate.hasFields, SensorUpdate.stripNulls]
  simp only [suppliedValue_map_some]

theorem delete_rowcount_iff (rows : List SensorRow) (sensor_id : String) :
    (SensorRepository.delete rows sensor_id).2 = true ↔
      ∃ r ∈ rows, r.id = sensor_id := by
  rw [SensorRepository.delete]
  simp only [decide_eq_true_eq]
  rw [List.length_pos]
  constructor
  · intro h
    rcases List.exists_mem_of_ne_nil _ h with ⟨r, hr⟩
    have := List.mem_filter.mp hr
    exact ⟨r, this.1, by simpa using this.2⟩
  · rintro ⟨r, hr, hid⟩
    intro hnil
    have : r ∈ List.filter (fun r => r.id == sensor_id) rows :=
      List.mem_filter.mpr ⟨hr, by simpa using hid⟩
    rw [hnil] at this
    cases this

theorem get_after_delete (rows : List SensorRow) (sensor_id : String) :
    SensorRepository.get_by_id (SensorRepository.delete rows sensor_id).1
      sensor_id = none := by
  rw [SensorRepository.delete, SensorRepository.get_by_id]
  rw [List.find?_eq_none]
  intro r hr
  have := (List.mem_filter.mp hr).2
  simpa using this

theorem delete_after_delete (rows : List SensorRow) (sensor_id : String) :
    (SensorRepository.delete (SensorRepository.delete rows sensor_id).1
      sensor_id).2 = false := by
  cases h : (SensorRepository.delete (SensorRepository.delete rows sensor_id).1 sensor_id).2 with
  | false => rfl
  | true =>
    rcases (delete_rowcount_iff _ _).mp h with ⟨r, hr, hid⟩
    have := (List.mem_filter.mp hr).2
    simp [hid] at this

theorem matchesSensorNNN_isLike {id : String}
    (h : matchesSensorNNN id = true) : isLikeSensor id = true := by
  rw [matchesSensorNNN] at h
  simp only [Bool.and_eq_true, decide_eq_true_eq] at h
  rw [isLikeSensor, decide_eq_true_eq]
  have htake : id.data.take 7 = "sensor-".data := h.1.1
  have : (id.data.map Char.toLower).take 7 = (id.data.take 7).map Char.toLower :=
    (List.map_take _ _ _).symm
  rw [this, htake]
  decide

theorem suffixNum_of_matches {id : String} (h : matchesSensorNNN id = true) :
    suffixNum id = (specSuffix id : Int) := by
  rw [matchesSensorNNN] at h
  simp only [Bool.and_eq_true, decide_eq_true_eq] at h
  rw [suffixNum, substrFrom8, specSuffix]
  apply castToInt_digits
  · simpa [List.isEmpty_iff] using h.1.2
  · intro c hc
    exact (List.all_eq_true.mp h.2) c hc

theorem sqlMax_natCast (ns : List Nat) :
    (sqlMax (ns.map Int.ofNat)).getD 0 = (ns.foldr max 0 : Nat) := by
  induction ns with
  | nil => rfl
  | cons n ns ih =>
    rw [List.map_cons, sqlMax, List.foldr_cons]
    cases h : sqlMax (ns.map Int.ofNat) with
    | none =>
      have : ns.map Int.ofNat = [] := (sqlMax_eq_none_iff _).mp h
      have hns : ns = [] := by simpa using this
      subst hns
      simp [Option.elim]
    | some m =>
      rw [h] at ih
      simp only [Option.getD_some] at ih
      simp only [Option.elim, Option.getD_some]
      rw [ih]
      push_cast
      rfl

theorem max_num_eq_spec (rows : List SensorRow)
    (H : ∀ r ∈ rows, isLikeSensor r.id = true → matchesSensorNNN r.id = true) :
    SensorRepository.max_num rows = (specNextSuffix rows : Int) - 1 := by
  rw [SensorRepository.max_num, specNextSuffix]
  have hfil : rows.filter (fun r => isLikeSensor r.id) =
      rows.filter (fun r => matchesSensorNNN r.id) := by
    apply List.filter_congr
    intro r hr
    cases hl : isLikeSensor r.id with
    | true => rw [H r hr hl]
    | false =>
      cases hm : matchesSensorNNN r.id with
      | false => rfl
      | true => rw [matchesSensorNNN_isLike hm] at hl; cases hl
  rw [hfil]
  have hmap : (rows.filter (fun r => matchesSensorNNN r.id)).map
        (fun r => suffixNum r.id) =
      ((rows.filter (fun r => matchesSensorNNN r.id)).map
        (fun r => specSuffix r.id)).map Int.ofNat := by
    rw [List.map_map]
    apply List.map_congr_left
    intro r hr
    exact suffixNum_of_matches (List.mem_filter.mp hr).2
  rw [hmap, sqlMax_natCast]
  push_cast
  ring

theorem authGate_allowed_iff (settings : Settings)
    (credential : Option String) :
    (∃ t, authGate settings credential = .allowed t) ↔
      credential = some settings.api_token := by
  constructor
  · rintro ⟨t, ht⟩
    match credential with
    | none => simp [authGate] at ht
    | some c =>
      by_cases h : c = settings.api_token
      · rw [h]
      · rw [authGate, verify_token, if_pos (by simpa using h)] at ht
        cases ht
  · rintro rfl
    exact ⟨settings.api_token, by simp [authGate, verify_token]⟩

theorem authGate_unauthorized (settings : Settings)
    (credential : Option String)
    (hne : credential ≠ some settings.api_token) :
    ∃ d, authGate settings credential =
      .unauthorized 401 d (some "Bearer") := by
  match credential with
  | none => exact ⟨"Not authenticated", rfl⟩
  | some c =>
    refine ⟨"Invalid or expired token", ?_⟩
    have hc : c ≠ settings.api_token := fun h => hne (by rw [h])
    rw [authGate, verify_token, if_pos (by simpa using hc)]

/-! ## Claim theorems -/

/-- C1 counterexample: from the empty store, create allocates `sensor-001`;
after deleting it the next create allocates `sensor-001` again, not
`sensor-002` — a suffix freed by deletion is reallocated. -/
theorem suffix_reuse_counterexample :
    (SensorRepository.create [] sampleCreate "t1").1.id = "sensor-001" ∧
    (SensorRepository.delete (SensorRepository.create [] sampleCreate "t1").2
      "sensor-001").2 = true ∧
    (SensorRepository.create
      (SensorRepository.delete (SensorRepository.create [] sampleCreate "t1").2
        "sensor-001").1 sampleCreate "t2").1.id = "sensor-001" ∧
    "sensor-001" ≠ "sensor-002" := by
  refine ⟨?_, ?_, ?_, ?_⟩ <;> decide

/-- C1 (amended): the numeric suffix allocated by a create is
`max_num(store) + 1`, strictly greater than the suffix of every id currently
in the store; hence the suffixes of two consecutive creates are strictly
increasing and the first create on an empty store yields `sensor-001`.  A
suffix freed by deletion may however be reallocated once no stored id
carries an equal or larger suffix. -/
theorem create_suffix_monotone (rows : List SensorRow) (c₁ c₂ : SensorCreate)
    (t₁ t₂ : String) :
    suffixNum (SensorRepository.create rows c₁ t₁).1.id =
      SensorRepository.max_num rows + 1 ∧
    (∀ r ∈ rows, isLikeSensor r.id = true →
      suffixNum r.id < suffixNum (SensorRepository.create rows c₁ t₁).1.id) ∧
    suffixNum (SensorRepository.create rows c₁ t₁).1.id <
      suffixNum (SensorRepository.create
        (SensorRepository.create rows c₁ t₁).2 c₂ t₂).1.id ∧
    (SensorRepository.create [] c₁ t₁).1.id = "sensor-001" := by
  refine ⟨suffixNum_create rows c₁ t₁, ?_, ?_, by rw [create_fst_id]; decide⟩
  · intro r hr hlike
    rw [suffixNum_create]
    have := suffixNum_le_max_num hr hlike
    omega
  · rw [suffixNum_create, suffixNum_create]
    have h1 : (SensorRepository.create rows c₁ t₁).1 ∈
        (SensorRepository.create rows c₁ t₁).2 :=
      List.mem_append_right _ (List.mem_singleton.mpr rfl)
    have hlike : isLikeSensor (SensorRepository.create rows c₁ t₁).1.id = true := by
      rw [create_fst_id]
      exact isLikeSensor_sensor_append _
    have := suffixNum_le_max_num h1 hlike
    rw [suffixNum_create] at this
    omega

/-- Witness for `create_suffix_monotone` at a concrete store. -/
theorem create_suffix_monotone_witness :
    suffixNum (SensorRepository.create [sampleRow3] sampleCreate "t1").1.id =
      SensorRepository.max_num [sampleRow3] + 1 ∧
    suffixNum sampleRow3.id <
      suffixNum (SensorRepository.create [sampleRow3] sampleCreate "t1").1.id :=
  ⟨(create_suffix_monotone [sampleRow3] sampleCreate sampleCreate "t1" "t2").1,
   (create_suffix_monotone [sampleRow3] sampleCreate sampleCreate "t1" "t2").2.1
     sampleRow3 (by decide) (by decide)⟩

/-- C2: in any store whose `sensor-`-prefixed ids all match the `sensor-NNN`
pattern, create allocates the id whose numeric suffix is the maximum suffix
among the `sensor-NNN` ids plus 1 (1 when none exist), and sets `created_at`,
`updated_at` and `last_reading` to the same given timestamp. -/
theorem create_allocates_next_spec_suffix (rows : List SensorRow)
    (c : SensorCreate) (now : String)
    (H : ∀ r ∈ rows, isLikeSensor r.id = true → matchesSensorNNN r.id = true) :
    suffixNum (SensorRepository.create rows c now).1.id =
      (specNextSuffix rows : Int) ∧
    (rows.filter (fun r => matchesSensorNNN r.id) = [] →
      specNextSuffix rows = 1) ∧
    (SensorRepository.create rows c now).1.created_at = now ∧
    (SensorRepository.create rows c now).1.updated_at = now ∧
    (SensorRepository.create rows c now).1.last_reading = now := by
  refine ⟨?_, ?_, rfl, rfl, rfl⟩
  · rw [suffixNum_create, max_num_eq_spec rows H]
    ring
  · intro h
    rw [specNextSuffix, h]
    rfl

/-- Witness for `create_allocates_next_spec_suffix` on a concrete store
holding `sensor-003` and `sensor-007`: the allocated suffix is 8. -/
theorem create_allocates_next_spec_suffix_witness :
    suffixNum (SensorRepository.create [sampleRow3, sampleRow7] sampleCreate
        "t1").1.id = (specNextSuffix [sampleRow3, sampleRow7] : Int) ∧
    specNextSuffix [sampleRow3, sampleRow7] = 8 :=
  ⟨(create_allocates_next_spec_suffix [sampleRow3, sampleRow7] sampleCreate
      "t1" (by decide)).1, by decide⟩

/-- C3: when the sensor exists, update changes exactly the supplied non-null
fields and keeps the rest (in particular `created_at`) at their prior
values; when at least one field is supplied it stamps `updated_at` and
`last_reading` with the given time; when no field is supplied it returns the
record and the store completely unchanged. -/
theorem update_changes_exactly_supplied_fields (rows : List SensorRow)
    (sensor_id : String) (u : SensorUpdate) (now : String) (ex : SensorRow)
    (hex : SensorRepository.get_by_id rows sensor_id = some ex) :
    (u.hasFields = true →
      ∃ r', (SensorRepository.update rows sensor_id u now).1 = some r' ∧
        r'.id = ex.id ∧
        r'.name = (suppliedValue u.name).getD ex.name ∧
        r'.type = ((suppliedValue u.type).map SensorType.value).getD ex.type ∧
        r'.location = (suppliedValue u.location).getD ex.location ∧
        r'.value = ((suppliedValue u.value).map
          SensorRepository.convert_value_for_storage).getD ex.value ∧
        r'.unit = (suppliedValue u.unit).getD ex.unit ∧
        r'.status = ((suppliedValue u.status).map SensorStatus.value).getD
          ex.status ∧
        r'.created_at = ex.created_at ∧
        r'.updated_at = now ∧ r'.last_reading = now) ∧
    (u.hasFields = false →
      SensorRepository.update rows sensor_id u now = (some ex, rows)) := by
  constructor
  · intro hf
    refine ⟨applyUpdate u now ex, ?_, rfl, rfl, rfl, rfl, rfl, rfl, rfl, rfl,
      rfl, rfl⟩
    rw [update_char rows sensor_id u now ex hex, if_pos hf]
  · intro hf
    rw [update_char rows sensor_id u now ex hex, hf]
    simp

/-- Witness for `update_changes_exactly_supplied_fields`: a concrete update
of `value` and `status` on `sensor-003`, and a concrete empty update. -/
theorem update_changes_exactly_supplied_fields_witness :
    (∃ r', (SensorRepository.update [sampleRow3] "sensor-003" sampleUpdate
        "t1").1 = some r' ∧
      r'.id = sampleRow3.id ∧
      r'.name = (suppliedValue sampleUpdate.name).getD sampleRow3.name ∧
      r'.type = ((suppliedValue sampleUpdate.type).map SensorType.value).getD
        sampleRow3.type ∧
      r'.location = (suppliedValue sampleUpdate.location).getD
        sampleRow3.location ∧
      r'.value = ((suppliedValue sampleUpdate.value).map
        SensorRepository.convert_value_for_storage).getD sampleRow3.value ∧
      r'.unit = (suppliedValue sampleUpdate.unit).getD sampleRow3.unit ∧
      r'.status = ((suppliedValue sampleUpdate.status).map
        SensorStatus.value).getD sampleRow3.status ∧
      r'.created_at = sampleRow3.created_at ∧
      r'.updated_at = "t1" ∧ r'.last_reading = "t1") ∧
    SensorRepository.update [sampleRow3] "sensor-003" {} "t1" =
      (some sampleRow3, [sampleRow3]) :=
  ⟨(update_changes_exactly_supplied_fields [sampleRow3] "sensor-003"
      sampleUpdate "t1" sampleRow3 (by decide)).1 (by decide),
   (update_changes_exactly_supplied_fields [sampleRow3] "sensor-003"
      {} "t1" sampleRow3 (by decide)).2 (by decide)⟩

/-- C4: boolean sensor values are persisted and returned as 1.0 / 0.0,
integers and floats as floating-point numbers; both create and update store
and return the converted value. -/
theorem value_normalized_to_float (rows : List SensorRow) (c : SensorCreate)
    (sensor_id now : String) (u : SensorUpdate) (ex : SensorRow) (n : Int)
    (q : ℚ) (pv : PyVal) :
    SensorRepository.convert_value_for_storage (.pyBool true) = 1 ∧
    SensorRepository.convert_value_for_storage (.pyBool false) = 0 ∧
    SensorRepository.convert_value_for_storage (.pyInt n) = (n : ℚ) ∧
    SensorRepository.convert_value_for_storage (.pyFloat q) = q ∧
    (SensorRepository.create rows c now).1.value =
      SensorRepository.convert_value_for_storage c.value ∧
    (SensorRepository.get_by_id rows sensor_id = some ex →
      u.value = some (some pv) →
      ∃ r', (SensorRepository.update rows sensor_id u now).1 = some r' ∧
        r'.value = SensorRepository.convert_value_for_storage pv) := by
  refine ⟨rfl, rfl, rfl, rfl, rfl, ?_⟩
  intro hex hv
  have hf : u.hasFields = true := by
    rw [SensorUpdate.hasFields, hv]
    simp [suppliedValue]
  refine ⟨applyUpdate u now ex, ?_, ?_⟩
  · rw [update_char rows sensor_id u now ex hex, if_pos hf]
  · rw [applyUpdate]
    simp [hv, suppliedValue]

/-- Witness for `value_normalized_to_float`: updating `sensor-003` with
`value: true` persists 1.0. -/
theorem value_normalized_to_float_witness :
    ∃ r', (SensorRepository.update [sampleRow3] "sensor-003" boolTrueUpdate
        "t1").1 = some r' ∧
      r'.value = SensorRepository.convert_value_for_storage (.pyBool true) :=
  (value_normalized_to_float [sampleRow3] sampleCreate "sensor-003" "t1"
    boolTrueUpdate sampleRow3 0 0 (.pyBool true)).2.2.2.2.2 (by decide) rfl

/-- C5: delete returns true exactly when a row with the id existed (and
removes it); afterwards a get of that id is "not found", a second delete
returns false, and the HTTP delete handler maps that to a 404 response
rather than an error. -/
theorem delete_idempotent_semantics (settings : Settings)
    (rows : List SensorRow) (sensor_id : String) :
    ((SensorRepository.delete rows sensor_id).2 = true ↔
      ∃ r ∈ rows, r.id = sensor_id) ∧
    SensorRepository.get_by_id (SensorRepository.delete rows sensor_id).1
      sensor_id = none ∧
    (SensorRepository.delete (SensorRepository.delete rows sensor_id).1
      sensor_id).2 = false ∧
    (delete_sensor settings (some settings.api_token)
        (SensorRepository.delete rows sensor_id).1 sensor_id).1 =
      .httpError 404 ("No sensor with id \x27" ++ sensor_id ++ "\x27") none := by
  refine ⟨delete_rowcount_iff rows sensor_id, get_after_delete rows sensor_id,
    delete_after_delete rows sensor_id, ?_⟩
  have ha : authGate settings (some settings.api_token) =
      .allowed settings.api_token := by
    simp [authGate, verify_token]
  rw [delete_sensor, ha]
  simp [delete_after_delete rows sensor_id]

/-- Witness for `delete_idempotent_semantics` at a concrete store. -/
theorem delete_idempotent_semantics_witness :
    ((SensorRepository.delete [sampleRow3] "sensor-003").2 = true ↔
      ∃ r ∈ [sampleRow3], r.id = "sensor-003") ∧
    SensorRepository.get_by_id
      (SensorRepository.delete [sampleRow3] "sensor-003").1 "sensor-003" =
      none ∧
    (SensorRepository.delete
      (SensorRepository.delete [sampleRow3] "sensor-003").1 "sensor-003").2 =
      false ∧
    (delete_sensor sampleSettings (some sampleSettings.api_token)
        (SensorRepository.delete [sampleRow3] "sensor-003").1 "sensor-003").1 =
      .httpError 404 ("No sensor with id \x27" ++ "sensor-003" ++ "\x27")
        none :=
  delete_idempotent_semantics sampleSettings [sampleRow3] "sensor-003"

/-- C6: the auth gate admits a request exactly when the presented credential
equals the configured secret by string equality; otherwise (mismatch or
absence) it rejects with status 401 and a `WWW-Authenticate: Bearer`
challenge. -/
theorem auth_gate_exact_equality (settings : Settings)
    (credential : Option String) :
    ((∃ t, authGate settings credential = .allowed t) ↔
      credential = some settings.api_token) ∧
    (credential ≠ some settings.api_token →
      ∃ d, authGate settings credential = .unauthorized 401 d (some "Bearer")) :=
  ⟨authGate_allowed_iff settings credential,
   authGate_unauthorized settings credential⟩

/-- Witness for `auth_gate_exact_equality`: the matching credential is
allowed, a wrong one is rejected with the 401 challenge. -/
theorem auth_gate_exact_equality_witness :
    (∃ t, authGate sampleSettings (some "test-secret-token") = .allowed t) ∧
    (∃ d, authGate sampleSettings (some "wrong") =
      .unauthorized 401 d (some "Bearer")) :=
  ⟨(auth_gate_exact_equality sampleSettings (some "test-secret-token")).1.mpr
      rfl,
   (auth_gate_exact_equality sampleSettings (some "wrong")).2 (by decide)⟩

/-- C7: a request to any sensor endpoint without a credential or with a
wrong one is rejected with a 401 challenge and leaves the store untouched —
no repository operation runs. -/
theorem unauthorized_never_reaches_store (settings : Settings)
    (credential : Option String) (rows : List SensorRow) (c : SensorCreate)
    (sensor_id : String) (u : SensorUpdate) (now : String)
    (hbad : credential ≠ some settings.api_token) :
    (list_sensors settings credential rows).2 = rows ∧
    (get_sensor settings credential rows sensor_id).2 = rows ∧
    (create_sensor settings credential rows c now).2 = rows ∧
    (update_sensor settings credential rows sensor_id u now).2 = rows ∧
    (delete_sensor settings credential rows sensor_id).2 = rows ∧
    ∃ d,
      (list_sensors settings credential rows).1 =
        .httpError 401 d (some "Bearer") ∧
      (get_sensor settings credential rows sensor_id).1 =
        .httpError 401 d (some "Bearer") ∧
      (create_sensor settings credential rows c now).1 =
        .httpError 401 d (some "Bearer") ∧
      (update_sensor settings credential rows sensor_id u now).1 =
        .httpError 401 d (some "Bearer") ∧
      (delete_sensor settings credential rows sensor_id).1 =
        .httpError 401 d (some "Bearer") := by
  obtain ⟨d, hd⟩ := authGate_unauthorized settings credential hbad
  rw [list_sensors, get_sensor, create_sensor, update_sensor, delete_sensor,
    hd]
  exact ⟨rfl, rfl, rfl, rfl, rfl, d, rfl, rfl, rfl, rfl, rfl⟩

/-- Witness for `unauthorized_never_reaches_store`: a credential-free create
against a store holding `sensor-003` leaves the store unchanged. -/
theorem unauthorized_never_reaches_store_witness :
    (create_sensor sampleSettings none [sampleRow3] sampleCreate "t1").2 =
      [sampleRow3] :=
  (unauthorized_never_reaches_store sampleSettings none [sampleRow3]
    sampleCreate "sensor-003" {} "t1" (by decide)).2.2.1

/-- C8 (code bug): for every configuration, `GET /health` without a
credential is rejected and only the configured token is accepted — there is
no configuration that exempts the health endpoint from authentication,
contrary to the claim and to the test of the repository itself,
`test_health_returns_ok_without_auth`. -/
theorem health_requires_token_always (settings : Settings) :
    health settings none = .httpError 401 "Not authenticated" (some "Bearer") ∧
    health settings (some settings.api_token) = .ok "ok" "python" ∧
    (∀ credential : Option String, credential ≠ some settings.api_token →
      ∀ st sv, health settings credential ≠ .ok st sv) := by
  refine ⟨rfl, by simp [health, authGate, verify_token], ?_⟩
  intro credential hne st sv h
  obtain ⟨d, hd⟩ := authGate_unauthorized settings credential hne
  rw [health, hd] at h
  cases h

/-- Witness for `health_requires_token_always` at the test configuration. -/
theorem health_requires_token_always_witness :
    health sampleSettings none =
      .httpError 401 "Not authenticated" (some "Bearer") ∧
    health sampleSettings (some "test-secret-token") = .ok "ok" "python" ∧
    health sampleSettings (some "wrong") ≠ .ok "ok" "python" :=
  ⟨(health_requires_token_always sampleSettings).1,
   (health_requires_token_always sampleSettings).2.1,
   (health_requires_token_always sampleSettings).2.2 (some "wrong")
     (by decide) "ok" "python"⟩

/-- C9: the middleware returns the inner response with the correlation id —
the inbound header when present, the freshly generated one otherwise —
attached as `X-Correlation-ID`, and emits exactly one log record carrying
that same id, the method, the path, the response status and the elapsed
milliseconds. -/
theorem correlation_id_echo_and_single_log (req : RequestInfo)
    (freshId : String) (inner : HttpResult) (elapsedMs : ℚ) :
    (LoggingMiddleware.dispatch req freshId inner elapsedMs).1.statusCode =
      inner.statusCode ∧
    (LoggingMiddleware.dispatch req freshId inner elapsedMs).1.headers =
      inner.headers ++
        [("X-Correlation-ID", req.correlationHeader.getD freshId)] ∧
    (LoggingMiddleware.dispatch req freshId inner elapsedMs).2 =
      [{ level := "INFO",
         correlation_id := req.correlationHeader.getD freshId,
         message := "Request completed", method := req.method,
         path := req.path, status := inner.statusCode,
         duration_ms := elapsedMs }] ∧
    (∀ cid, req.correlationHeader = some cid →
      req.correlationHeader.getD freshId = cid) ∧
    (req.correlationHeader = none →
      req.correlationHeader.getD freshId = freshId) := by
  refine ⟨rfl, rfl, rfl, ?_, ?_⟩
  · intro cid hcid
    rw [hcid]
    rfl
  · intro hnone
    rw [hnone]
    rfl

/-- Witness for `correlation_id_echo_and_single_log` at a concrete request
carrying the header `abc-123`. -/
theorem correlation_id_echo_and_single_log_witness :
    (LoggingMiddleware.dispatch sampleRequest "fresh" sampleInner 5).1.headers =
      sampleInner.headers ++ [("X-Correlation-ID", "abc-123")] ∧
    (LoggingMiddleware.dispatch sampleRequest "fresh" sampleInner 5).2 =
      [{ level := "INFO", correlation_id := "abc-123",
         message := "Request completed", method := "GET", path := "/sensors",
         status := 200, duration_ms := 5 }] :=
  ⟨(correlation_id_echo_and_single_log sampleRequest "fresh" sampleInner 5).2.1,
   (correlation_id_echo_and_single_log sampleRequest "fresh" sampleInner
     5).2.2.1⟩

/-- C10: an explicitly-null field in an update input behaves exactly as an
absent one — the update result is the same as with that field removed — and
an update whose supplied fields are all null (so no non-null field) behaves
as the empty update: the record is returned unchanged, timestamps
included. -/
theorem update_null_fields_treated_absent (rows : List SensorRow)
    (sensor_id : String) (u : SensorUpdate) (now : String) :
    SensorRepository.update rows sensor_id u now =
      SensorRepository.update rows sensor_id u.stripNulls now ∧
    (u.hasFields = false →
      SensorRepository.update rows sensor_id u now =
        (SensorRepository.get_by_id rows sensor_id, rows)) := by
  constructor
  · cases hex : SensorRepository.get_by_id rows sensor_id with
    | none =>
      rw [update_not_found rows sensor_id u now hex,
        update_not_found rows sensor_id u.stripNulls now hex]
    | some ex =>
      rw [update_char rows sensor_id u now ex hex,
        update_char rows sensor_id u.stripNulls now ex hex,
        stripNulls_hasFields]
      cases hf : u.hasFields with
      | false => simp
      | true => simp [stripNulls_applyUpdate]
  · intro hf
    cases hex : SensorRepository.get_by_id rows sensor_id with
    | none => rw [update_not_found rows sensor_id u now hex]
    | some ex =>
      rw [update_char rows sensor_id u now ex hex, hf]
      simp

/-- Witness for `update_null_fields_treated_absent`: updating `sensor-003`
with an explicit null name leaves the record and the store untouched. -/
theorem update_null_fields_treated_absent_witness :
    SensorRepository.update [sampleRow3] "sensor-003" sampleNullUpdate "t1" =
      (some sampleRow3, [sampleRow3]) :=
  ((update_null_fields_treated_absent [sampleRow3] "sensor-003"
      sampleNullUpdate "t1").2 (by decide)).trans (by decide)
